import Mathlib

/-
A verification development for the dorado read-pipeline excerpt.

Shallow embeddings, translated from the C++ sources:
  - the barcode trim-interval logic and simplex-read trimming of
    `read_pipeline/BarcodeClassifierNode.cpp`;
  - the pre-allocated slab pool `CorrectionNode::MemoryManager` of
    `read_pipeline/CorrectionNode.h`;
  - the option validation, exit-code and batch-size selection of
    `cli/basecaller.cpp`;
  - the message dispatch of the barcode classifier worker and of
    `read_pipeline/ErrorCorrectionPafWriterNode.cpp`;
  - the tag extraction `HtsReader::get_tag` of `read_pipeline/HtsReader.h`;
  - the poly-A configuration parser exercised by
    `tests/PolyACalculatorTest.cpp` (modelled from the spec, the parser
    itself being outside the excerpt).

C++ `int` values are modelled as `Int`, `float` scores as `ℚ` (the claims
only exercise scores far from the 0.6 threshold, where the float and
rational comparisons agree), and throwing functions as `Except String`.
-/

namespace Dorado

/-- The sentinel kit/barcode name for unclassified reads
(`UNCLASSIFIED_BARCODE` in BarcodeClassifierNode.cpp). -/
def UNCLASSIFIED_BARCODE : String := "unclassified"

/-- The flank-score threshold `kFlankScoreThres = 0.6f` of
`determine_trim_interval` (BarcodeClassifierNode.cpp). -/
def kFlankScoreThres : ℚ := mkRat 6 10

/-- Per-kit information obtained from `barcode_kits::get_kit_infos()`.
The kit table lives in `utils/barcode_kits.cpp`, outside the excerpt, so
only the field read by the trim logic is modelled; the table lookup is a
parameter of `determine_trim_interval`. -/
structure KitInfo where
  double_ends : Bool

/-- `dorado::BarcodeScoreResult`, restricted to the fields read by
`determine_trim_interval`. Barcode positions are `std::pair<int, int>`
in the source. -/
structure BarcodeScoreResult where
  kit : String
  top_flank_score : ℚ
  bottom_flank_score : ℚ
  top_barcode_pos : Int × Int
  bottom_barcode_pos : Int × Int
  use_top : Bool

/-- `determine_trim_interval` (BarcodeClassifierNode.cpp, lines 98-153).
The C++ early returns are rendered as nested conditionals: the
unclassified case and the degenerate double-ended fallback return
directly, bypassing the final degeneracy check; in the non-degenerate
double-ended branch the final check `second <= first` is false by the
branch guard, so `(first, second)` is returned as is. -/
def determine_trim_interval (kit_infos : String → KitInfo) (res : BarcodeScoreResult)
    (seqlen : Int) : Int × Int :=
  if res.kit = UNCLASSIFIED_BARCODE then (0, seqlen)
  else if (kit_infos res.kit).double_ends then
    let first : Int :=
      if res.top_flank_score > kFlankScoreThres then res.top_barcode_pos.2 + 1 else 0
    let second : Int :=
      if res.bottom_flank_score > kFlankScoreThres then res.bottom_barcode_pos.1 else seqlen
    if second ≤ first then
      if res.use_top then (res.top_barcode_pos.1, res.top_barcode_pos.2 + 1)
      else (res.bottom_barcode_pos.1, res.bottom_barcode_pos.2 + 1)
    else
      (first, second)
  else
    let first : Int :=
      if res.top_flank_score > kFlankScoreThres then res.top_barcode_pos.2 + 1 else 0
    if seqlen ≤ first then (0, seqlen) else (first, seqlen)

/-- The invariant asserted by the spec for barcode trim intervals:
start at least zero, end at most the sequence length, end past start. -/
def trimIntervalInv (interval : Int × Int) (seqlen : Int) : Prop :=
  0 ≤ interval.1 ∧ interval.2 ≤ seqlen ∧ interval.1 < interval.2

instance (interval : Int × Int) (seqlen : Int) : Decidable (trimIntervalInv interval seqlen) :=
  inferInstanceAs (Decidable (0 ≤ interval.1 ∧ interval.2 ≤ seqlen ∧ interval.1 < interval.2))

/-- A kit table on which every kit is double-ended, used by the concrete
scenarios below. -/
def doubleEndedKits : String → KitInfo := fun _ => ⟨true⟩

/-- The score result of spec Scenario E: classified, both flank scores 0.9,
top barcode at (0, 40), bottom barcode at (5, 45), `use_top` set. -/
def c1Res : BarcodeScoreResult :=
  { kit := "SQK-RBK114-96", top_flank_score := mkRat 9 10, bottom_flank_score := mkRat 9 10,
    top_barcode_pos := (0, 40), bottom_barcode_pos := (5, 45), use_top := true }

/-- An unclassified score result, paired below with `seqlen = 0`. -/
def c2UnclassifiedRes : BarcodeScoreResult :=
  { kit := "unclassified", top_flank_score := 0, bottom_flank_score := 0,
    top_barcode_pos := (0, 0), bottom_barcode_pos := (0, 0), use_top := true }

/-- A classified double-ended score result whose top barcode position
(45, 60) lies partly beyond a sequence of length 50. -/
def c2OutOfRangeRes : BarcodeScoreResult :=
  { kit := "SQK-RBK114-96", top_flank_score := mkRat 9 10, bottom_flank_score := mkRat 9 10,
    top_barcode_pos := (45, 60), bottom_barcode_pos := (0, 10), use_top := true }

/-- C1: for every classified double-ended-kit read the trim interval starts
as `[0, seqlen)`; a top flank score above 0.6 advances the start to
`top_barcode_pos.end + 1`; a bottom flank score above 0.6 retracts the end
to `bottom_barcode_pos.start`; and a degenerate result falls back to the
window of the flank selected by `use_top`. -/
theorem C1_trim_interval_double_ended (kit_infos : String → KitInfo)
    (res : BarcodeScoreResult) (seqlen : Int)
    (hclass : res.kit ≠ UNCLASSIFIED_BARCODE)
    (hdouble : (kit_infos res.kit).double_ends = true) :
    determine_trim_interval kit_infos res seqlen =
      (let start : Int :=
         if res.top_flank_score > mkRat 6 10 then res.top_barcode_pos.2 + 1 else 0
       let stop : Int :=
         if res.bottom_flank_score > mkRat 6 10 then res.bottom_barcode_pos.1 else seqlen
       if stop ≤ start then
         if res.use_top then (res.top_barcode_pos.1, res.top_barcode_pos.2 + 1)
         else (res.bottom_barcode_pos.1, res.bottom_barcode_pos.2 + 1)
       else (start, stop)) := by
  simp only [determine_trim_interval, kFlankScoreThres, if_neg hclass, hdouble, if_true]

/-- C1 witness, spec Scenario E: seqlen 50, flank scores 0.9, top barcode
(0, 40), bottom barcode (5, 45), `use_top`; the interval is (0, 41). -/
theorem C1_witness :
    c1Res.kit ≠ UNCLASSIFIED_BARCODE ∧
    determine_trim_interval doubleEndedKits c1Res 50 = (0, 41) := by
  refine ⟨by decide, ?_⟩
  have h := C1_trim_interval_double_ended doubleEndedKits c1Res 50 (by decide) rfl
  exact h.trans (by decide)

/-- C2 counterexample: the claimed invariant fails as stated. At
`seqlen = 0` the unclassified interval is `(0, 0)`, violating
`end > start`; and with the top barcode position (45, 60) reaching beyond a
sequence of length 50, the degenerate-fallback path returns `(45, 61)`,
violating `end <= seqlen`. -/
theorem C2_counterexample :
    ((0 : Int) ≤ 0 ∧
      ¬ trimIntervalInv (determine_trim_interval doubleEndedKits c2UnclassifiedRes 0) 0) ∧
    ((0 : Int) ≤ 50 ∧
      ¬ trimIntervalInv (determine_trim_interval doubleEndedKits c2OutOfRangeRes 50) 50) := by
  decide

/-- C2 (amended): for every barcode score result whose top and bottom
barcode positions are well-formed sub-intervals of `[0, seqlen)` and every
positive `seqlen`, the trim interval satisfies `start >= 0`,
`end <= seqlen` and `end > start`. -/
theorem C2_trim_interval_invariant (kit_infos : String → KitInfo)
    (res : BarcodeScoreResult) (seqlen : Int)
    (hlen : 0 < seqlen)
    (htop : 0 ≤ res.top_barcode_pos.1 ∧ res.top_barcode_pos.1 ≤ res.top_barcode_pos.2 ∧
      res.top_barcode_pos.2 < seqlen)
    (hbot : 0 ≤ res.bottom_barcode_pos.1 ∧ res.bottom_barcode_pos.1 ≤ res.bottom_barcode_pos.2 ∧
      res.bottom_barcode_pos.2 < seqlen) :
    trimIntervalInv (determine_trim_interval kit_infos res seqlen) seqlen := by
  obtain ⟨ht1, ht2, ht3⟩ := htop
  obtain ⟨hb1, hb2, hb3⟩ := hbot
  simp only [determine_trim_interval, trimIntervalInv]
  split_ifs <;> refine ⟨?_, ?_, ?_⟩ <;> simp <;> omega

/-- C2 witness: the Scenario E result against `seqlen = 50` has
well-formed barcode positions, and its trim interval satisfies the
invariant. -/
theorem C2_witness : trimIntervalInv (determine_trim_interval doubleEndedKits c1Res 50) 50 :=
  C2_trim_interval_invariant doubleEndedKits c1Res 50 (by decide) (by decide) (by decide)

/-- `CorrectionNode::MemoryManager` (CorrectionNode.h, lines 71-110): the
state is the queue of free slab offsets (`m_bases_locations`), front
first. Slab pointers are modelled as offsets into the backing allocation
`m_bases_ptr`. -/
structure MemoryManager where
  free : List Nat
deriving DecidableEq

/-- Window-size constant `WS = 5120` of `CorrectionNode::MemoryManager`. -/
def MemoryManager.WS : Nat := 5120

/-- Constant `NR = 31` of `CorrectionNode::MemoryManager`. -/
def MemoryManager.NR : Nat := 31

/-- `const size_t num_tensors = 8 * 8;  // devices * threads per device;`
— the pool size is hardcoded in the constructor (CorrectionNode.h). -/
def MemoryManager.num_tensors : Nat := 8 * 8

/-- The `MemoryManager(int batch_size)` constructor: pre-allocates
`num_tensors` slabs of `WS * NR * batch_size` elements each and queues
their start offsets. -/
def MemoryManager.init (batch_size : Nat) : MemoryManager :=
  { free := (List.range MemoryManager.num_tensors).map
      (fun i => i * (MemoryManager.WS * MemoryManager.NR * batch_size)) }

/-- `MemoryManager::get_next_ptr`: throws `"No more pointers left!"` when
the queue of free slabs is empty, otherwise pops and returns the front
slab. -/
def MemoryManager.get_next_ptr (m : MemoryManager) : Except String (Nat × MemoryManager) :=
  match m.free with
  | [] => .error "No more pointers left!"
  | p :: rest => .ok (p, ⟨rest⟩)

/-- `MemoryManager::return_ptr`: pushes the slab back onto the free
queue. -/
def MemoryManager.return_ptr (m : MemoryManager) (p : Nat) : MemoryManager :=
  ⟨m.free ++ [p]⟩

/-- `n` consecutive `get_next_ptr` calls with no intervening
`return_ptr`: the state after `n` concurrent callers have each acquired a
slab, the first error aborting the sequence. -/
def MemoryManager.acquireN : Nat → MemoryManager → Except String MemoryManager
  | 0, m => .ok m
  | n + 1, m =>
    match m.get_next_ptr with
    | .error e => .error e
    | .ok pm => MemoryManager.acquireN n pm.2

theorem MemoryManager.acquireN_state (n : Nat) (l : List Nat) :
    (n ≤ l.length →
      ∃ l', MemoryManager.acquireN n ⟨l⟩ = .ok ⟨l'⟩ ∧ l'.length = l.length - n) ∧
    (l.length < n →
      MemoryManager.acquireN n ⟨l⟩ = .error "No more pointers left!") := by
  induction n generalizing l with
  | zero => exact ⟨fun _ => ⟨l, rfl, by simp⟩, fun h => by simp at h⟩
  | succ k ih =>
    cases l with
    | nil =>
      refine ⟨fun h => by simp at h, fun _ => ?_⟩
      simp [MemoryManager.acquireN, MemoryManager.get_next_ptr]
    | cons p rest =>
      have hstep : MemoryManager.acquireN (k + 1) ⟨p :: rest⟩ =
          MemoryManager.acquireN k ⟨rest⟩ := by
        simp [MemoryManager.acquireN, MemoryManager.get_next_ptr]
      constructor
      · intro h
        obtain ⟨l', hrun, hlen⟩ := (ih rest).1 (by simpa using h)
        exact ⟨l', by rw [hstep, hrun], by simp only [List.length_cons]; omega⟩
      · intro h
        rw [hstep]
        exact (ih rest).2 (by simpa using h)

/-- C3 counterexample: the pool always holds `8 * 8 = 64` slabs (the size
is hardcoded, not `num_devices × threads_per_device` of the current
configuration), after 64 acquisitions the free queue is empty, and an
acquisition on the empty pool returns the error `"No more pointers
left!"` immediately instead of blocking until a slab is free. -/
theorem C3_counterexample :
    (MemoryManager.init 1).free.length = 8 * 8 ∧
    MemoryManager.acquireN (8 * 8) (MemoryManager.init 1) = .ok ⟨[]⟩ ∧
    MemoryManager.get_next_ptr ⟨[]⟩ = .error "No more pointers left!" := by
  refine ⟨by decide, by rfl, rfl⟩

/-- C3 (amended): the pool is pre-allocated with exactly 64 slabs
(`8 * 8`, hardcoded as devices × threads per device) whatever the batch
size; a run of `n ≤ 64` concurrent acquisitions succeeds, leaving
`64 - n` free slabs; a run of `n > 64` concurrent acquisitions — more
concurrent callers than slabs — fails with `"No more pointers left!"`
(thrown immediately, not blocking); and `return_ptr` returns a slab to
the pool. -/
theorem C3_memory_pool (batch_size n : Nat) :
    (MemoryManager.init batch_size).free.length = 8 * 8 ∧
    (n ≤ 8 * 8 →
      ∃ m', MemoryManager.acquireN n (MemoryManager.init batch_size) = .ok m' ∧
        m'.free.length = 8 * 8 - n) ∧
    (8 * 8 < n →
      MemoryManager.acquireN n (MemoryManager.init batch_size) =
        .error "No more pointers left!") ∧
    (∀ (m : MemoryManager) (p : Nat), (m.return_ptr p).free.length = m.free.length + 1) := by
  have hlen : (MemoryManager.init batch_size).free.length = 8 * 8 := by
    simp [MemoryManager.init, MemoryManager.num_tensors]
  refine ⟨hlen, ?_, ?_, ?_⟩
  · intro hn
    obtain ⟨l', hrun, hl⟩ :=
      (MemoryManager.acquireN_state n (MemoryManager.init batch_size).free).1 (by omega)
    refine ⟨⟨l'⟩, hrun, ?_⟩
    show l'.length = 8 * 8 - n
    omega
  · intro hn
    exact (MemoryManager.acquireN_state n (MemoryManager.init batch_size).free).2 (by omega)
  · intro m p
    simp [MemoryManager.return_ptr]

/-- C3 witness: with batch size 1, 64 acquisitions drain the pool and a
65th fails with `"No more pointers left!"`. -/
theorem C3_witness :
    (∃ m', MemoryManager.acquireN 64 (MemoryManager.init 1) = .ok m' ∧
      m'.free.length = 8 * 8 - 64) ∧
    MemoryManager.acquireN 65 (MemoryManager.init 1) = .error "No more pointers left!" :=
  ⟨(C3_memory_pool 1 64).2.1 (by decide), (C3_memory_pool 1 65).2.2.1 (by decide)⟩

/-- Modelled from the spec: `utils::trim_sequence` (utils/trim.cpp is not
part of the excerpt). "Apply the trim to `seq`, `qstring`": keep the
characters of the half-open interval `[start, stop)`. -/
def trim_sequence (s : String) (interval : Int × Int) : String :=
  ((s.toList.drop interval.1.toNat).take (interval.2 - interval.1).toNat).asString

/-- Modelled from the spec: `utils::trim_quality` (utils/trim.cpp is not
part of the excerpt). The same half-open sublist on a list of byte
values. -/
def trim_quality (q : List Nat) (interval : Int × Int) : List Nat :=
  (q.drop interval.1.toNat).take (interval.2 - interval.1).toNat

/-- The index of the stride step at which base number `b` (0-based) is
emitted: a nonzero move-table entry marks a base emission (spec glossary);
the length of the table is returned when fewer than `b + 1` bases are
emitted. -/
def moveIndexOf : List Nat → Nat → Nat
  | [], _ => 0
  | v :: rest, b =>
    if v ≠ 0 then
      if b = 0 then 0 else 1 + moveIndexOf rest (b - 1)
    else 1 + moveIndexOf rest b

/-- Modelled from the spec: `utils::trim_move_table` (utils/trim.cpp is
not part of the excerpt). Trimming the bases to `[start, stop)` drops the
stride steps before the step emitting base `start` and keeps the steps up
to just before the step emitting base `stop`; the result is the count of
dropped head steps and the kept steps. -/
def trim_move_table (moves : List Nat) (interval : Int × Int) : Nat × List Nat :=
  let startIdx := moveIndexOf moves interval.1.toNat
  let stopIdx := moveIndexOf moves interval.2.toNat
  (startIdx, (moves.drop startIdx).take (stopIdx - startIdx))

/-- `dorado::ModBaseInfo`, restricted to the field read by the trimming
code: the modification alphabet, whose size is the channel count. -/
structure ModBaseInfo where
  alphabet : String
deriving DecidableEq

/-- The fields of `dorado::ReadCommon` touched by
`BarcodeClassifierNode::trim_barcode(SimplexRead&, ...)`. -/
structure ReadCommon where
  seq : String
  qstring : String
  moves : List Nat
  model_stride : Nat
  num_trimmed_samples : Nat
  mod_base_info : Option ModBaseInfo
  base_mod_probs : List Nat
deriving DecidableEq

/-- `BarcodeClassifierNode::trim_barcode(SimplexRead& read, trim_interval)`
(BarcodeClassifierNode.cpp, lines 224-246): a no-op when the interval
covers the whole sequence; otherwise trims `seq`, `qstring` and `moves`,
adds `model_stride * num_positions_trimmed` to `num_trimmed_samples`, and,
when modified-base information is present, trims `base_mod_probs` over the
interval scaled by the channel count. -/
def trim_barcode_read (r : ReadCommon) (trim_interval : Int × Int) : ReadCommon :=
  if trim_interval.2 - trim_interval.1 = (r.seq.length : Int) then r
  else
    let tm := trim_move_table r.moves trim_interval
    let base : ReadCommon :=
      { r with
          seq := trim_sequence r.seq trim_interval,
          qstring := trim_sequence r.qstring trim_interval,
          moves := tm.2,
          num_trimmed_samples := r.num_trimmed_samples + r.model_stride * tm.1 }
    match r.mod_base_info with
    | some info =>
        { base with
            base_mod_probs := trim_quality r.base_mod_probs
              (trim_interval.1 * (info.alphabet.length : Int),
               trim_interval.2 * (info.alphabet.length : Int)) }
    | none => base

/-- C4: for every read and barcode trim interval `[s, e)` that is a proper
sub-interval of the sequence, the trim replaces `seq` and `qstring` by
their `[s, e)` restrictions, replaces `moves` by its trimmed form,
increases `num_trimmed_samples` by exactly `model_stride` times the number
of move-table positions trimmed from the head, and trims `base_mod_probs`
(when present) over the interval scaled by the channel count. -/
theorem C4_trim_barcode_read (r : ReadCommon) (s e : Int)
    (hs : 0 ≤ s) (hse : s ≤ e) (he : e ≤ (r.seq.length : Int))
    (hproper : e - s < (r.seq.length : Int)) :
    (trim_barcode_read r (s, e)).seq.toList =
      (r.seq.toList.drop s.toNat).take (e - s).toNat ∧
    (trim_barcode_read r (s, e)).qstring.toList =
      (r.qstring.toList.drop s.toNat).take (e - s).toNat ∧
    (trim_barcode_read r (s, e)).moves =
      (r.moves.drop (moveIndexOf r.moves s.toNat)).take
        (moveIndexOf r.moves e.toNat - moveIndexOf r.moves s.toNat) ∧
    (trim_barcode_read r (s, e)).num_trimmed_samples =
      r.num_trimmed_samples + r.model_stride * moveIndexOf r.moves s.toNat ∧
    (∀ info, r.mod_base_info = some info →
      (trim_barcode_read r (s, e)).base_mod_probs =
        trim_quality r.base_mod_probs
          (s * (info.alphabet.length : Int), e * (info.alphabet.length : Int))) ∧
    (r.mod_base_info = none →
      (trim_barcode_read r (s, e)).base_mod_probs = r.base_mod_probs) := by
  have hne : ¬ ((s, e).2 - (s, e).1 = (r.seq.length : Int)) := by simp; omega
  cases hmb : r.mod_base_info with
  | none =>
    simp [trim_barcode_read, hne, hmb, trim_sequence, trim_quality, trim_move_table,
      List.asString]
  | some info =>
    refine ⟨?_, ?_, ?_, ?_, ?_, ?_⟩ <;>
      simp [trim_barcode_read, hne, hmb, trim_sequence, trim_quality, trim_move_table,
        List.asString]

/-- A concrete read for the C4 scenario: 8 bases, stride 5, two
modified-base channels, 16 per-channel probabilities, 100 samples already
trimmed. -/
def c4Read : ReadCommon :=
  { seq := "ACGTACGT", qstring := "((((((((", moves := [1, 1, 0, 1, 1, 1, 0, 1, 1, 1],
    model_stride := 5, num_trimmed_samples := 100,
    mod_base_info := some ⟨"AC"⟩,
    base_mod_probs := [0, 1, 2, 3, 4, 5, 6, 7, 8, 9, 10, 11, 12, 13, 14, 15] }

/-- C4 witness: trimming `c4Read` to the proper sub-interval `[2, 6)`
yields sequence `"GTAC"`, drops 3 head move steps (so
`num_trimmed_samples` grows by `5 * 3`), and keeps probability bytes
`[4, 12)`. -/
theorem C4_witness :
    ((0 : Int) ≤ 2 ∧ (2 : Int) ≤ 6 ∧ (6 : Int) ≤ (c4Read.seq.length : Int) ∧
      (6 : Int) - 2 < (c4Read.seq.length : Int)) ∧
    (trim_barcode_read c4Read (2, 6)).seq.toList =
      (c4Read.seq.toList.drop (2 : Int).toNat).take ((6 : Int) - 2).toNat ∧
    (trim_barcode_read c4Read (2, 6)).num_trimmed_samples =
      c4Read.num_trimmed_samples + c4Read.model_stride * moveIndexOf c4Read.moves (2 : Int).toNat ∧
    (trim_barcode_read c4Read (2, 6)).seq = "GTAC" ∧
    (trim_barcode_read c4Read (2, 6)).num_trimmed_samples = 115 ∧
    (trim_barcode_read c4Read (2, 6)).base_mod_probs = [4, 5, 6, 7, 8, 9, 10, 11] := by
  have h := C4_trim_barcode_read c4Read 2 6 (by decide) (by decide) (by decide) (by decide)
  exact ⟨⟨by decide, by decide, by decide, by decide⟩, h.1, h.2.2.2.1, by decide, by decide,
    by decide⟩

/-- The output-mode validation of `setup` (cli/basecaller.cpp, lines
164-170): modified-base models together with FASTQ output, or a reference
together with FASTQ output, throw a runtime error. (The second message
reads "can be used" in the source; its throw still rejects the
combination.) -/
def setup_output_checks (remora_models ref : String) (emit_fastq : Bool) :
    Except String Unit :=
  if remora_models ≠ "" ∧ emit_fastq then
    .error "Modified base models cannot be used with FASTQ output"
  else if ref ≠ "" ∧ emit_fastq then
    .error "Alignment to reference can be used with FASTQ output."
  else
    .ok ()

/-- The `try { setup(...) } catch { return 1 } ... return 0` structure of
`basecaller` (cli/basecaller.cpp, lines 374-390): any error escaping
`setup` yields exit code 1, success yields 0. -/
def basecaller_exit (setup_result : Except String Unit) : Int :=
  match setup_result with
  | .error _ => 1
  | .ok _ => 0

/-- C5: specifying modified-base models with FASTQ output, or a reference
with FASTQ output, makes `setup` fail, and the program exits with code 1
on any such fatal error and 0 on success. -/
theorem C5_fastq_exclusions (remora_models ref : String) (emit_fastq : Bool) :
    (((remora_models ≠ "" ∧ emit_fastq) ∨ (ref ≠ "" ∧ emit_fastq)) →
      ∃ msg, setup_output_checks remora_models ref emit_fastq = .error msg ∧
        basecaller_exit (setup_output_checks remora_models ref emit_fastq) = 1) ∧
    (setup_output_checks remora_models ref emit_fastq = .ok () →
      basecaller_exit (setup_output_checks remora_models ref emit_fastq) = 0) := by
  constructor
  · intro hbad
    unfold setup_output_checks
    rcases hbad with h | h
    · rw [if_pos h]
      exact ⟨_, rfl, rfl⟩
    · by_cases h1 : remora_models ≠ "" ∧ emit_fastq
      · rw [if_pos h1]
        exact ⟨_, rfl, rfl⟩
      · rw [if_neg h1, if_pos h]
        exact ⟨_, rfl, rfl⟩
  · intro hok
    rw [hok]
    rfl

/-- C5 witness: modified-base models `"mods.pt"` with FASTQ output are
rejected and exit with code 1; with all checks passing the exit code
is 0. -/
theorem C5_witness :
    (∃ msg, setup_output_checks "mods.pt" "" true = .error msg ∧
      basecaller_exit (setup_output_checks "mods.pt" "" true) = 1) ∧
    basecaller_exit (setup_output_checks "" "" false) = 0 :=
  ⟨(C5_fastq_exclusions "mods.pt" "" true).1 (Or.inl ⟨by decide, rfl⟩),
   (C5_fastq_exclusions "" "" false).2 rfl⟩

/-- The device kinds distinguished by `setup` when selecting the batch
size (cli/basecaller.cpp, lines 100-140): `"cpu"`, `"metal"` on Apple GPU
builds, and CUDA device strings otherwise. -/
inductive DeviceKind where
  | cpu
  | metal
  | cuda
deriving DecidableEq

/-- The batch-size selection of `setup` (cli/basecaller.cpp, lines
100-140). The externally computed quantities are parameters:
`hardware_concurrency` is `std::thread::hardware_concurrency()`, and the
two auto values are `utils::auto_gpu_batch_size()` (Metal) and
`utils::auto_gpu_batch_size(model_path, devices)` (CUDA), both outside
the excerpt. -/
def effective_batch_size (device : DeviceKind) (batch_size : Nat)
    (hardware_concurrency auto_metal auto_cuda : Nat) : Nat :=
  match device with
  | .cpu => if batch_size = 0 then hardware_concurrency else batch_size
  | .metal => if batch_size = 0 then auto_metal else batch_size
  | .cuda => if batch_size = 0 then auto_cuda else batch_size

/-- C7: `batch_size == 0` means "auto": on the CPU the batch size becomes
the hardware concurrency, on Metal and CUDA devices the device-specific
auto-calibrated value; a nonzero batch size is kept as given. -/
theorem C7_auto_batch_size (device : DeviceKind) (batch_size : Nat)
    (hardware_concurrency auto_metal auto_cuda : Nat) :
    (batch_size = 0 →
      effective_batch_size .cpu batch_size hardware_concurrency auto_metal auto_cuda =
        hardware_concurrency ∧
      effective_batch_size .metal batch_size hardware_concurrency auto_metal auto_cuda =
        auto_metal ∧
      effective_batch_size .cuda batch_size hardware_concurrency auto_metal auto_cuda =
        auto_cuda) ∧
    (batch_size ≠ 0 →
      effective_batch_size device batch_size hardware_concurrency auto_metal auto_cuda =
        batch_size) := by
  constructor
  · intro h
    subst h
    exact ⟨rfl, rfl, rfl⟩
  · intro h
    cases device <;> simp [effective_batch_size, h]

/-- C7 witness: with `batch_size = 0`, hardware concurrency 16 and auto
values 448 and 704, the CPU batch size is 16, the Metal one 448 and the
CUDA one 704; with `batch_size = 64` the value 64 is kept. -/
theorem C7_witness :
    (effective_batch_size .cpu 0 16 448 704 = 16 ∧
      effective_batch_size .metal 0 16 448 704 = 448 ∧
      effective_batch_size .cuda 0 16 448 704 = 704) ∧
    effective_batch_size .cuda 64 16 448 704 = 64 :=
  ⟨(C7_auto_batch_size .cpu 0 16 448 704).1 rfl,
   (C7_auto_batch_size .cuda 64 16 448 704).2 (by decide)⟩

/-- The reverse complement of a nucleotide sequence, used by the poly-A
configuration: complement each base and reverse. -/
def complement_base (c : Char) : Char :=
  if c = 'A' then 'T'
  else if c = 'T' then 'A'
  else if c = 'C' then 'G'
  else if c = 'G' then 'C'
  else c

/-- Reverse complement of a sequence string. -/
def reverse_complement (s : String) : String :=
  (s.toList.reverse.map complement_base).asString

/-- The optional fields of the `anchors` and `tail` tables of a poly-A
configuration file, as exercised by tests/PolyACalculatorTest.cpp. -/
structure PolyTailConfigFile where
  front_primer : Option String
  rear_primer : Option String
  plasmid_front_flank : Option String
  plasmid_rear_flank : Option String
  tail_interrupt_length : Option Int
deriving DecidableEq

/-- The parsed poly-A configuration, with the fields checked by
tests/PolyACalculatorTest.cpp. -/
structure PolyTailConfig where
  front_primer : String
  rear_primer : String
  rc_front_primer : String
  rc_rear_primer : String
  plasmid_front_flank : String
  plasmid_rear_flank : String
  rc_plasmid_front_flank : String
  rc_plasmid_rear_flank : String
  is_plasmid : Bool
  tail_interrupt_length : Int
deriving DecidableEq

/-- Modelled from the spec: `dorado::poly_tail::prepare_config`
(poly_tail/poly_tail_config.cpp is not part of the excerpt; spec
Scenario D and tests/PolyACalculatorTest.cpp specify it). Providing only
one of the two primers, or only one of the two plasmid flanks, fails with
the corresponding message; otherwise the reverse complements are filled
in, `is_plasmid` records that the plasmid flanks were specified, and
`tail_interrupt_length` defaults to 0. -/
def prepare_config (f : PolyTailConfigFile) : Except String PolyTailConfig :=
  if f.front_primer.isSome ≠ f.rear_primer.isSome then
    .error "Both front_primer and rear_primer must be provided in the PolyA configuration file."
  else if f.plasmid_front_flank.isSome ≠ f.plasmid_rear_flank.isSome then
    .error
      "Both plasmid_front_flank and plasmid_rear_flank must be provided in the PolyA configuration file."
  else
    let fp := f.front_primer.getD ""
    let rp := f.rear_primer.getD ""
    let pff := f.plasmid_front_flank.getD ""
    let prf := f.plasmid_rear_flank.getD ""
    .ok
      { front_primer := fp, rear_primer := rp,
        rc_front_primer := reverse_complement fp,
        rc_rear_primer := reverse_complement rp,
        plasmid_front_flank := pff, plasmid_rear_flank := prf,
        rc_plasmid_front_flank := reverse_complement pff,
        rc_plasmid_rear_flank := reverse_complement prf,
        is_plasmid := f.plasmid_front_flank.isSome,
        tail_interrupt_length := f.tail_interrupt_length.getD 0 }

/-- The configuration file of the test "Parse all supported configs":
both primers, both plasmid flanks `"CGTA"` / `"ACTG"`, and
`tail.tail_interrupt_length = 10`. -/
def c6ConfigFile : PolyTailConfigFile :=
  { front_primer := some "AAAAAA", rear_primer := some "GGGGGG",
    plasmid_front_flank := some "CGTA", plasmid_rear_flank := some "ACTG",
    tail_interrupt_length := some 10 }

/-- The configuration file of the test "Only one plasmid flank is
provided": just `plasmid_rear_flank = "ACTG"`. -/
def c6OneFlankFile : PolyTailConfigFile :=
  { front_primer := none, rear_primer := none,
    plasmid_front_flank := none, plasmid_rear_flank := some "ACTG",
    tail_interrupt_length := none }

/-- The configuration the test "Parse all supported configs" expects
`prepare_config` to produce from `c6ConfigFile`. -/
def c6ExpectedConfig : PolyTailConfig :=
  { front_primer := "AAAAAA", rear_primer := "GGGGGG",
    rc_front_primer := "TTTTTT", rc_rear_primer := "CCCCCC",
    plasmid_front_flank := "CGTA", plasmid_rear_flank := "ACTG",
    rc_plasmid_front_flank := "TACG", rc_plasmid_rear_flank := "CAGT",
    is_plasmid := true, tail_interrupt_length := 10 }

/-- C6: parsing a configuration providing both plasmid flanks
`"CGTA"` / `"ACTG"` and `tail_interrupt_length = 10` yields
`is_plasmid = true`, `rc_plasmid_front_flank = "TACG"`,
`rc_plasmid_rear_flank = "CAGT"` and `tail_interrupt_length = 10`; and
every configuration providing exactly one of the two plasmid flanks (with
the primers consistently present or absent) fails with the message
starting "Both plasmid_front_flank and plasmid_rear_flank must be
provided". -/
theorem C6_poly_tail_config :
    (∃ cfg, prepare_config c6ConfigFile = .ok cfg ∧
      cfg.is_plasmid = true ∧
      cfg.rc_plasmid_front_flank = "TACG" ∧
      cfg.rc_plasmid_rear_flank = "CAGT" ∧
      cfg.tail_interrupt_length = 10) ∧
    (∀ f : PolyTailConfigFile,
      f.front_primer.isSome = f.rear_primer.isSome →
      f.plasmid_front_flank.isSome ≠ f.plasmid_rear_flank.isSome →
      ∃ msg, prepare_config f = .error msg ∧
        ∃ rest, msg =
          "Both plasmid_front_flank and plasmid_rear_flank must be provided" ++ rest) := by
  constructor
  · exact ⟨c6ExpectedConfig, rfl, rfl, rfl, rfl, rfl⟩
  · intro f hprimer hflank
    unfold prepare_config
    rw [if_neg (by simp [hprimer]), if_pos hflank]
    exact ⟨_, rfl, " in the PolyA configuration file.", rfl⟩

/-- C6 witness: the file providing only `plasmid_rear_flank = "ACTG"`
fails with the plasmid-flank message. -/
theorem C6_witness :
    ∃ msg, prepare_config c6OneFlankFile = .error msg ∧
      ∃ rest, msg =
        "Both plasmid_front_flank and plasmid_rear_flank must be provided" ++ rest :=
  C6_poly_tail_config.2 c6OneFlankFile rfl (by decide)

/-- `dorado::CorrectionAlignments` (declared in read_pipeline/messages.h,
outside the excerpt), restricted to the fields read by the PAF writer:
the target read name and the per-alignment query names, overlaps and
cigars. Overlap and cigar payloads are abstract type parameters. -/
structure CorrectionAlignments (O C : Type) where
  read_name : String
  qnames : List String
  overlaps : List O
  cigars : List C
deriving DecidableEq

/-- The `dorado::Message` variant type (spec section 3: a closed set of
`SimplexRead`, `DuplexRead`, `BamRecord` and `CorrectionAlignments`;
messages.h is outside the excerpt). Payload types are parameters: `B` a
BAM record, `R` a simplex read, `D` a duplex read. -/
inductive Message (B R D O C : Type) where
  | bamRecord : B → Message B R D O C
  | simplexRead : R → Message B R D O C
  | duplexRead : D → Message B R D O C
  | correctionAlignments : CorrectionAlignments O C → Message B R D O C
deriving DecidableEq

/-- One iteration of `BarcodeClassifierNode::worker_thread`
(BarcodeClassifierNode.cpp, lines 81-96), returning the message sent to
the sink: BAM records and simplex reads are barcoded (the barcoding
itself, which calls into the external barcoder, is a parameter), every
other variant is forwarded unchanged. -/
def worker_thread_step {B R D O C : Type} (barcode_bam : B → B) (barcode_read : R → R) :
    Message B R D O C → Message B R D O C
  | .bamRecord b => .bamRecord (barcode_bam b)
  | .simplexRead r => .simplexRead (barcode_read r)
  | m => m

/-- One PAF output line of `utils::serialize_to_paf` with the argument
order used by the PAF writer: query name, target name, overlap, two zero
fields, mapping quality 60, cigar. Modelled from the spec (paf_utils.cpp
is outside the excerpt): one line per call, carrying the given fields.
The overlap and cigar are looked up by index in the source without a
bounds check; the lookup is modelled with `List.get?`. -/
structure PafLine (O C : Type) where
  qname : String
  tname : String
  overlap : Option O
  zero1 : Nat
  zero2 : Nat
  mapq : Nat
  cigar : Option C
deriving DecidableEq

/-- One iteration of `ErrorCorrectionPafWriterNode::input_thread_fn`
(ErrorCorrectionPafWriterNode.cpp, lines 13-28): the PAF lines written to
stdout and the messages forwarded to a sink (the node sends nothing
downstream). Non-`CorrectionAlignments` messages hit the `continue`
branch. -/
def paf_writer_step {B R D O C : Type} (m : Message B R D O C) :
    List (PafLine O C) × List (Message B R D O C) :=
  match m with
  | .correctionAlignments a =>
      ((List.range a.qnames.length).map (fun i =>
        { qname := a.qnames.getD i "", tname := a.read_name,
          overlap := a.overlaps.get? i, zero1 := 0, zero2 := 0, mapq := 60,
          cigar := a.cigars.get? i }), [])
  | _ => ([], [])

theorem range_map_getD (l : List String) :
    (List.range l.length).map (fun i => l.getD i "") = l := by
  apply List.ext_getElem
  · simp
  · intro i h1 h2
    simp [List.getD_eq_getElem?_getD, List.getElem?_eq_getElem, h2]

/-- C8: every message popped by a barcode-classifier worker that is
neither a BAM record nor a simplex read is sent to the sink unchanged,
whatever the barcoding functions do. -/
theorem C8_worker_passthrough {B R D O C : Type}
    (barcode_bam : B → B) (barcode_read : R → R) (m : Message B R D O C)
    (hbam : ∀ b, m ≠ .bamRecord b) (hread : ∀ r, m ≠ .simplexRead r) :
    worker_thread_step barcode_bam barcode_read m = m := by
  cases m with
  | bamRecord b => exact absurd rfl (hbam b)
  | simplexRead r => exact absurd rfl (hread r)
  | duplexRead d => rfl
  | correctionAlignments a => rfl

/-- C8 witness: with all payloads instantiated at `Nat`, a duplex-read
message and a correction-alignments message pass through unchanged. -/
theorem C8_witness :
    worker_thread_step (fun b : Nat => b + 1) (fun r : Nat => r + 2)
      (Message.duplexRead (B := Nat) (R := Nat) (O := Nat) (C := Nat) 7) =
      Message.duplexRead 7 ∧
    worker_thread_step (fun b : Nat => b + 1) (fun r : Nat => r + 2)
      (Message.correctionAlignments (B := Nat) (R := Nat) (D := Nat)
        ⟨"read", ["q1"], [3], [4]⟩) =
      Message.correctionAlignments ⟨"read", ["q1"], [3], [4]⟩ :=
  ⟨C8_worker_passthrough _ _ _ (fun b h => Message.noConfusion h)
      (fun r h => Message.noConfusion h),
   C8_worker_passthrough _ _ _ (fun b h => Message.noConfusion h)
      (fun r h => Message.noConfusion h)⟩

/-- C10: a message that is not a `CorrectionAlignments` variant produces
no PAF lines and forwards nothing; a `CorrectionAlignments` message also
forwards nothing and produces exactly one PAF line per contained qname,
the lines carrying the qnames in order. -/
theorem C10_paf_writer {B R D O C : Type} (m : Message B R D O C) :
    ((∀ a, m ≠ .correctionAlignments a) → paf_writer_step m = ([], [])) ∧
    (∀ a, m = .correctionAlignments a →
      (paf_writer_step m).2 = [] ∧
      (paf_writer_step m).1.length = a.qnames.length ∧
      (paf_writer_step m).1.map (fun line => line.qname) = a.qnames) := by
  constructor
  · intro h
    cases m with
    | bamRecord b => rfl
    | simplexRead r => rfl
    | duplexRead d => rfl
    | correctionAlignments a => exact absurd rfl (h a)
  · intro a ha
    subst ha
    refine ⟨rfl, by simp [paf_writer_step], ?_⟩
    simp only [paf_writer_step, List.map_map]
    exact range_map_getD a.qnames

/-- C10 witness: a duplex message (payloads at `Nat`) produces nothing,
and a correction-alignments message with two qnames produces two lines
carrying those qnames and forwards nothing. -/
theorem C10_witness :
    paf_writer_step (Message.duplexRead (B := Nat) (R := Nat) (O := Nat) (C := Nat) 5) =
      ([], []) ∧
    ((paf_writer_step (Message.correctionAlignments (B := Nat) (R := Nat) (D := Nat)
        ⟨"target", ["q1", "q2"], [11, 12], [21, 22]⟩)).2 = [] ∧
      (paf_writer_step (Message.correctionAlignments (B := Nat) (R := Nat) (D := Nat)
        ⟨"target", ["q1", "q2"], [11, 12], [21, 22]⟩)).1.length = 2 ∧
      (paf_writer_step (Message.correctionAlignments (B := Nat) (R := Nat) (D := Nat)
        ⟨"target", ["q1", "q2"], [11, 12], [21, 22]⟩)).1.map (fun line => line.qname) =
        ["q1", "q2"]) :=
  ⟨(C10_paf_writer _).1 (fun a h => Message.noConfusion h),
   (C10_paf_writer _).2 ⟨"target", ["q1", "q2"], [11, 12], [21, 22]⟩ rfl⟩

/-- The kind of the template parameter `T` of `HtsReader::get_tag`, as
discriminated by its `if constexpr` chain: integral, floating-point,
constructible from `char*`, or anything else. -/
inductive TagKind where
  | integral
  | floating
  | stringConstructible
  | other
deriving DecidableEq

/-- The value returned by `HtsReader::get_tag`, one constructor per
`TagKind`; `otherDefault` is the value-initialized `T{}` of an
unsupported type. -/
inductive TagResult where
  | intVal : Int → TagResult
  | floatVal : ℚ → TagResult
  | strVal : String → TagResult
  | otherDefault : TagResult
deriving DecidableEq

/-- The value-initialized default `T tag_value{}` per kind: 0 for
integral and floating-point types, the empty string for
string-constructible types. -/
def valueInit : TagKind → TagResult
  | .integral => .intVal 0
  | .floating => .floatVal 0
  | .stringConstructible => .strVal ""
  | .other => .otherDefault

/-- `HtsReader::get_tag<T>` (HtsReader.h, lines 43-63). The record's aux
field is the partial map `aux` (htslib's `bam_aux_get`), and the htslib
conversions `bam_aux2i`, `bam_aux2f`, `bam_aux2Z` are parameters over the
abstract tag payload `V`. When the tag is absent the value-initialized
default is returned for every kind; the unsupported-kind `throw` is
reached only with the tag present. -/
def get_tag {V : Type} (aux : String → Option V)
    (aux2i : V → Int) (aux2f : V → ℚ) (aux2Z : V → String)
    (k : TagKind) (tagname : String) : Except String TagResult :=
  match aux tagname with
  | none => .ok (valueInit k)
  | some v =>
    match k with
    | .integral => .ok (.intVal (aux2i v))
    | .floating => .ok (.floatVal (aux2f v))
    | .stringConstructible => .ok (.strVal (aux2Z v))
    | .other => .error "Cannot get_tag for type "

/-- C9: for every tag name absent from the record, `get_tag` returns the
value-initialized default of `T` (0 for integral and floating-point
kinds, empty for string-constructible kinds) without failing; and
whenever `get_tag` throws, `T` is of none of those kinds. -/
theorem C9_get_tag_default {V : Type} (aux : String → Option V)
    (aux2i : V → Int) (aux2f : V → ℚ) (aux2Z : V → String)
    (k : TagKind) (tagname : String) :
    (aux tagname = none →
      get_tag aux aux2i aux2f aux2Z k tagname = .ok (valueInit k)) ∧
    (∀ msg, get_tag aux aux2i aux2f aux2Z k tagname = .error msg → k = .other) ∧
    valueInit .integral = .intVal 0 ∧
    valueInit .floating = .floatVal 0 ∧
    valueInit .stringConstructible = .strVal "" := by
  refine ⟨?_, ?_, rfl, rfl, rfl⟩
  · intro h
    simp [get_tag, h]
  · intro msg h
    unfold get_tag at h
    cases haux : aux tagname with
    | none => rw [haux] at h; exact absurd h (by simp)
    | some v =>
      rw [haux] at h
      cases k with
      | integral => exact absurd h (by simp)
      | floating => exact absurd h (by simp)
      | stringConstructible => exact absurd h (by simp)
      | other => rfl

/-- C9 witness: on a record with no aux tags, `get_tag` at kind integral
and tag `"qs"` returns `intVal 0`, and a concrete error return at kind
`other` (tag present) forces the kind to be `other`. -/
theorem C9_witness :
    get_tag (V := Unit) (fun _ => none) (fun _ => 0) (fun _ => 0) (fun _ => "")
      .integral "qs" = .ok (.intVal 0) ∧
    get_tag (V := Unit) (fun _ => some ()) (fun _ => 0) (fun _ => 0) (fun _ => "")
      .other "qs" = .error "Cannot get_tag for type " :=
  ⟨(C9_get_tag_default (fun _ => none) (fun _ => 0) (fun _ => 0) (fun _ => "")
      .integral "qs").1 rfl, rfl⟩

end Dorado
